/-
Verification of the certificate-rotation service (cas-gclb-rotation).

The Python sources under app/ are shallowly embedded below:
pure helpers become Lean functions on character lists and integers;
the remote GCP APIs become an explicit environment record of responses;
each client method returns the list of requests it emitted together with
an `Except`-style outcome mirroring Python exception propagation.
Randomness (uuid4 request ids, random resource ids) is modelled by draws
from a strictly increasing counter, base64 by an injective tag, and
datetimes by integers (microseconds); timedelta division is exact
rational division.
-/
import Mathlib

/-! ## String formatting helpers (string_utils.py) -/

/-- One decimal digit character, as produced by Python's decimal integer
formatting (code point 48 + digit). -/
def digitChar (n : Nat) : Char := Char.ofNat (48 + n % 10)

/-- Decimal digits of a natural number, accumulator style.  The first
argument is fuel; `natReprChars` supplies enough for every input. -/
def natDigitsAux : Nat → Nat → List Char → List Char
  | 0, _, acc => acc
  | fuel + 1, n, acc =>
    if n < 10 then digitChar n :: acc
    else natDigitsAux fuel (n / 10) (digitChar (n % 10) :: acc)

/-- Decimal representation of a natural number, as Python's
`'\x7b\x7d'.format(n)` renders a nonnegative int. -/
def natReprChars (n : Nat) : List Char := natDigitsAux (n + 1) n []

/-- Fractional-second digits: the microsecond remainder zero-padded to six
places with trailing zeros removed, as Python's float repr prints an exact
microsecond fraction. -/
def fracDigitsChars (frac : Nat) : List Char :=
  let padded := List.replicate (6 - (natReprChars frac).length) '0' ++ natReprChars frac
  ((padded.reverse.dropWhile (fun c => c == '0')).reverse)

/-- Characters of Python's `'\x7b\x7d'.format(round(d.total_seconds(), 6))`
for a duration of `us` microseconds: the whole seconds, then `.0` when the
fraction is zero (as float repr prints) or the fractional digits otherwise. -/
def formatSecondsChars (us : Nat) : List Char :=
  if us % 1000000 == 0 then natReprChars (us / 1000000) ++ ['.', '0']
  else natReprChars (us / 1000000) ++ '.' :: fracDigitsChars (us % 1000000)

/-- Embeds `serializeDurationForJson` (string_utils.py): format the total
seconds, strip a trailing `.0`, append the `s` suffix.  Durations are
integer microsecond counts. -/
def serializeDurationChars (us : Nat) : List Char :=
  let num := formatSecondsChars us
  let num2 := if ['.', '0'].isSuffixOf num then num.take (num.length - 2) else num
  num2 ++ ['s']

/-- String-valued wrapper for `serializeDurationForJson`. -/
def serializeDurationForJson (us : Nat) : String := String.mk (serializeDurationChars us)

/-- Embeds `serializePemBytesForJson` (string_utils.py): base64 is modelled
as an injective encoding marker. -/
def serializePemBytesForJson (pem : String) : String := String.mk ('b' :: '6' :: '4' :: ':' :: pem.data)

/-! ## The regular-expression fragment used by parseResourceId

`parseResourceId` interpolates the resource type into the pattern
`<type>/([^/]+)` and runs `re.search`.  The patterns reached this way are
built from ordinary characters plus whatever characters the resource type
contains; the matcher below implements the regex atoms that are single
characters: a literal character matches itself and `.` matches any
character except a newline.  Search is leftmost, and the capture group
`([^/]+)` is the maximal nonempty run of non-slash characters. -/

/-- Python regex metacharacters (special when they appear in a pattern). -/
def reMetachars : List Char :=
  ['.', '^', '$', '*', '+', '?', '\x7b', '\x7d', '[', ']', '\\', '|', '(', ')']

/-- Does the single-character regex atom `p` match input character `c`?
`.` matches everything except a newline; other characters match literally. -/
def reCharMatches (p c : Char) : Bool :=
  if p == '.' then c != '\n' else p == c

/-- Match the pattern characters against a prefix of the input, returning
the remaining input on success. -/
def matchAtoms : List Char → List Char → Option (List Char)
  | [], s => some s
  | _ :: _, [] => none
  | p :: ps, c :: cs => if reCharMatches p c then matchAtoms ps cs else none

/-- Try the whole pattern `<rtype>/([^/]+)` at the current position,
returning the captured group. -/
def matchPatternAt (rtype s : List Char) : Option (List Char) :=
  match matchAtoms rtype s with
  | none => none
  | some rest =>
    match rest with
    | '/' :: rest2 =>
      match rest2.takeWhile (fun c => c != '/') with
      | [] => none
      | c :: cs => some (c :: cs)
    | _ => none

/-- Leftmost search of the pattern, as `re.search` scans start positions
from the left. -/
def reSearchGroup (rtype : List Char) : List Char → Option (List Char)
  | [] => matchPatternAt rtype []
  | c :: cs =>
    match matchPatternAt rtype (c :: cs) with
    | some g => some g
    | none => reSearchGroup rtype cs

/-- Embeds `parseResourceId` (string_utils.py):
`re.search('\x7b\x7d/([^/]+)'.format(resource_type), resource_uri)`,
returning the captured group or `none`. -/
def parseResourceId (resource_uri resource_type : String) : Option String :=
  (reSearchGroup resource_type.data resource_uri.data).map String.mk

/-- Exact (literal) matching of the resource type, used by the
specification-side reading of `parseResourceId`. -/
def matchExact : List Char → List Char → Option (List Char)
  | [], s => some s
  | _ :: _, [] => none
  | p :: ps, c :: cs => if p == c then matchExact ps cs else none

/-- Literal occurrence of `<rtype>/` followed by a nonempty non-slash
segment at the current position, returning that segment. -/
def specMatchAt (rtype s : List Char) : Option (List Char) :=
  match matchExact rtype s with
  | none => none
  | some rest =>
    match rest with
    | '/' :: rest2 =>
      match rest2.takeWhile (fun c => c != '/') with
      | [] => none
      | c :: cs => some (c :: cs)
    | _ => none

/-- Leftmost literal occurrence search. -/
def specFindSegment (rtype : List Char) : List Char → Option (List Char)
  | [] => specMatchAt rtype []
  | c :: cs =>
    match specMatchAt rtype (c :: cs) with
    | some g => some g
    | none => specFindSegment rtype cs

/-- Modelled from the spec's words: the first non-empty path segment
immediately following the first occurrence of the resource type followed
by a slash, or `none` when the URI contains no such occurrence. -/
def specParseResourceId (resource_uri resource_type : String) : Option String :=
  (specFindSegment resource_type.data resource_uri.data).map String.mk

/-- Does the URI contain an occurrence of the resource type followed by a
slash and a non-empty segment (taking the resource type literally)? -/
def hasTypedSegment (resource_uri resource_type : String) : Bool :=
  (specFindSegment resource_type.data resource_uri.data).isSome

/-! ## Data model (config.py, crypto_utils.py, remote resources) -/

/-- Embeds `SimpleResource` (config.py). -/
structure SimpleResource where
  project : String
  location : String
  name : String
deriving DecidableEq, Repr

/-- `SimpleResource.isGlobal` (config.py). -/
def SimpleResource.isGlobal (r : SimpleResource) : Bool := r.location == "global"

/-- Embeds `RotationProfile` (config.py); the threshold is a rational,
timestamps and durations elsewhere are integers. -/
structure RotationProfile where
  lb : SimpleResource
  issuingPool : SimpleResource
  dnsName : String
  lifetimeDays : Nat
  rotationThreshold : ℚ
deriving DecidableEq, Repr

/-- `RotationProfile.lifetime` (config.py): `timedelta(self.lifetimeDays)`,
in microseconds. -/
def RotationProfile.lifetimeUs (p : RotationProfile) : Nat :=
  p.lifetimeDays * 86400 * 1000000

/-- Embeds `CryptoKeyPair` (crypto_utils.py), keys as PEM strings. -/
structure CryptoKeyPair where
  private_key : String
  public_key : String
deriving DecidableEq, Repr

/-- An SslCertificate resource as returned by the compute API
(the dict fields read by the workflow; timestamps as integers). -/
structure CertResource where
  name : String
  selfLink : String
  certType : String
  creationTimestamp : Int
  expireTime : Int
deriving DecidableEq, Repr

/-- A target-HTTPS-proxy resource: the field the workflow reads. -/
structure ProxyResource where
  sslCertificates : List String
deriving DecidableEq, Repr

/-- A long-running-operation resource: the fields the code reads. -/
structure Operation where
  selfLink : String
  targetLink : String
deriving DecidableEq, Repr

/-- The resource returned by an operations `wait` call: terminal status
and whether an error status is present (the field the code leaves
unchecked, see the TODO in `awaitOperation`). -/
structure OpResult where
  status : String
  hasError : Bool
deriving DecidableEq, Repr

/-- The certificate returned by the CAS `create` call. -/
structure CasCert where
  name : String
  pemCertificate : String
  pemCertificateChain : List String
deriving DecidableEq, Repr

/-- Python exception kinds reachable from the embedded code, plus the
error taxonomy of the specification (for stating its claims). -/
inductive PyErr where
  | httpError (status : Nat)
  | indexError
  | notFoundError
  | operationFailedError
  | otherError (msg : String)
deriving DecidableEq, Repr

instance {ε α : Type} [DecidableEq ε] [DecidableEq α] : DecidableEq (Except ε α) :=
  fun a b =>
    match a, b with
    | .error x, .error y =>
      if h : x = y then .isTrue (by rw [h]) else .isFalse (fun hc => h (by cases hc; rfl))
    | .ok x, .ok y =>
      if h : x = y then .isTrue (by rw [h]) else .isFalse (fun hc => h (by cases hc; rfl))
    | .error _, .ok _ => .isFalse (fun hc => Except.noConfusion hc)
    | .ok _, .error _ => .isFalse (fun hc => Except.noConfusion hc)

/-- The remote world of one workflow run: the response each request would
receive (an exception or a value), the key pair the generator yields, and
the current time (microseconds).  `waitResp` is keyed by the operation id
sent in the wait request. -/
structure Env where
  now : Int
  keyPair : CryptoKeyPair
  proxyResp : Except PyErr ProxyResource
  certResp : Except PyErr CertResource
  insertResp : Except PyErr Operation
  setResp : Except PyErr Operation
  deleteResp : Except PyErr Operation
  casResp : Except PyErr CasCert
  waitResp : Option String → Except PyErr OpResult

/-! ## Requests and request traces -/

/-- The body of an sslCertificates insert request (the fields the code
sends). -/
structure SslCertBody where
  name : String
  certificate : String
  privateKey : String
deriving DecidableEq, Repr

/-- The body of a CAS certificate create request: the fields
`issueNewCert` sends (constant x509 flags included). -/
structure CasBody where
  lifetime : String
  publicKey : String
  commonName : String
  dnsNames : List String
  isCa : Bool
  digitalSignature : Bool
  keyEncipherment : Bool
  serverAuth : Bool
deriving DecidableEq, Repr

/-- One observable step of a workflow run: a remote request (with the
idempotency token it carries, when any) or a local generation step.
Request-id draws are the counter values standing in for `uuid4()`. -/
inductive Event where
  | getProxy (isGlobal : Bool) (project location lbId : String)
  | getCert (isGlobal : Bool) (project location : String) (certId : Option String)
  | genId (rid : Nat)
  | genKey
  | casCreate (parent : String) (body : CasBody) (certificateId : String) (requestId : Option Nat)
  | insertCert (isGlobal : Bool) (project location : String) (body : SslCertBody) (requestId : Option Nat)
  | setCerts (isGlobal : Bool) (project location lbId : String) (uris : List String) (requestId : Option Nat)
  | deleteCert (isGlobal : Bool) (project location certId : String) (requestId : Option Nat)
  | waitOp (isGlobal : Bool) (project location : String) (opId : Option String)
deriving DecidableEq, Repr

/-- Is this event a mutating remote request (CAS issuance or a compute
create / set / delete)? -/
def Event.isMutating : Event → Bool
  | .casCreate _ _ _ _ => true
  | .insertCert _ _ _ _ _ => true
  | .setCerts _ _ _ _ _ _ => true
  | .deleteCert _ _ _ _ _ => true
  | _ => false

/-- Is this event the key-pair generation step? -/
def Event.isKeyGen : Event → Bool
  | .genKey => true
  | _ => false

/-- Is this event a certificate delete request? -/
def Event.isDelete : Event → Bool
  | .deleteCert _ _ _ _ _ => true
  | _ => false

/-- Is this event a set-ssl-certificates request? -/
def Event.isSet : Event → Bool
  | .setCerts _ _ _ _ _ _ => true
  | _ => false

/-- The idempotency token a request carries, when it is a tokened kind. -/
def Event.reqToken : Event → Option Nat
  | .casCreate _ _ _ t => t
  | .insertCert _ _ _ _ t => t
  | .setCerts _ _ _ _ _ t => t
  | .deleteCert _ _ _ _ t => t
  | _ => none

/-- All idempotency tokens carried by a trace. -/
def tokensOf (tr : List Event) : List Nat := tr.filterMap Event.reqToken

/-- Result of one embedded step: the requests emitted (in order), the
outcome (an uncaught exception or the return value), and the advanced
uuid counter. -/
structure StepOut (α : Type) where
  trace : List Event
  res : Except PyErr α
  gen : Nat
deriving Repr

/-! ## gcp_clients.py -/

/-- Embeds the `HttpsProxyClient` constructor state (gcp_clients.py). -/
structure HttpsProxyClient where
  project : String
  location : String
  is_global : Bool
  lb_id : String
deriving DecidableEq, Repr

/-- `HttpsProxyClient.__init__` from a load-balancer `SimpleResource`. -/
def HttpsProxyClient.ofLb (lb : SimpleResource) : HttpsProxyClient :=
  ⟨lb.project, lb.location, lb.isGlobal, lb.name⟩

/-- Embeds `HttpsProxyClient.awaitOperation`: parse the operation id from
the self-link, issue the (global or regional) wait request, and return.
The terminal status in the wait response is not inspected — the source
marks this with `# TODO: confirm success status.` — so any wait response
that is not itself an exception yields success. -/
def HttpsProxyClient.awaitOperation (c : HttpsProxyClient) (env : Env)
    (operation : Operation) : List Event × Except PyErr Unit :=
  let operation_id := parseResourceId operation.selfLink "operations"
  let call := Event.waitOp c.is_global c.project c.location operation_id
  match env.waitResp operation_id with
  | .error e => ([call], .error e)
  | .ok _ => ([call], .ok ())

/-- Embeds `HttpsProxyClient.getFirstCertificate`: fetch the proxy, index
its certificate list at 0 (an `IndexError` when the list is empty), parse
the certificate id, and fetch that certificate. -/
def HttpsProxyClient.getFirstCertificate (c : HttpsProxyClient) (env : Env) :
    List Event × Except PyErr CertResource :=
  let proxyCall := Event.getProxy c.is_global c.project c.location c.lb_id
  match env.proxyResp with
  | .error e => ([proxyCall], .error e)
  | .ok proxy =>
    match proxy.sslCertificates with
    | [] => ([proxyCall], .error PyErr.indexError)
    | cert_uri :: _ =>
      let cert_id := parseResourceId cert_uri "sslCertificates"
      let certCall := Event.getCert c.is_global c.project c.location cert_id
      match env.certResp with
      | .error e => ([proxyCall, certCall], .error e)
      | .ok cert => ([proxyCall, certCall], .ok cert)

/-- Embeds `HttpsProxyClient.createSslCertificate`: insert with a fresh
request id, await the returned operation, return its target link. -/
def HttpsProxyClient.createSslCertificate (c : HttpsProxyClient) (env : Env)
    (g : Nat) (cert_id : String) (private_key : String) (cert_chain : String) :
    StepOut String :=
  let body : SslCertBody := ⟨cert_id, cert_chain, private_key⟩
  let call := Event.insertCert c.is_global c.project c.location body (some g)
  match env.insertResp with
  | .error e => ⟨[call], .error e, g + 1⟩
  | .ok insertOperation =>
    match c.awaitOperation env insertOperation with
    | (t2, .error e) => ⟨call :: t2, .error e, g + 1⟩
    | (t2, .ok _) => ⟨call :: t2, .ok insertOperation.targetLink, g + 1⟩

/-- Embeds `HttpsProxyClient.setSslCertificate`: replace the proxy's
certificate binding with exactly the given URI, with a fresh request id,
and await the operation. -/
def HttpsProxyClient.setSslCertificate (c : HttpsProxyClient) (env : Env)
    (g : Nat) (cert_uri : String) : StepOut Unit :=
  let call := Event.setCerts c.is_global c.project c.location c.lb_id [cert_uri] (some g)
  match env.setResp with
  | .error e => ⟨[call], .error e, g + 1⟩
  | .ok updateOperation =>
    match c.awaitOperation env updateOperation with
    | (t2, .error e) => ⟨call :: t2, .error e, g + 1⟩
    | (t2, .ok _) => ⟨call :: t2, .ok (), g + 1⟩

/-- Embeds `HttpsProxyClient.deleteSslCertificate`: delete the named
certificate and await the operation.  The delete request carries no
request id — the source passes none. -/
def HttpsProxyClient.deleteSslCertificate (c : HttpsProxyClient) (env : Env)
    (cert_id : String) : List Event × Except PyErr Unit :=
  let call := Event.deleteCert c.is_global c.project c.location cert_id none
  match env.deleteResp with
  | .error e => ([call], .error e)
  | .ok deleteOperation =>
    match c.awaitOperation env deleteOperation with
    | (t2, .error e) => (call :: t2, .error e)
    | (t2, .ok _) => (call :: t2, .ok ())

/-- Embeds `CertificateAuthorityServiceClient.issueNewCert`: build the
request body, submit with a fresh request id, and return the leaf
certificate followed by the chain. -/
def issueNewCert (profile : RotationProfile) (env : Env) (g : Nat)
    (cert_id : String) (public_key : String) : StepOut (List String) :=
  let cert_body : CasBody :=
    ⟨serializeDurationForJson profile.lifetimeUs,
     serializePemBytesForJson public_key,
     profile.dnsName, [profile.dnsName],
     false, true, true, true⟩
  let parent := String.mk ("projects/".data ++ profile.issuingPool.project.data
    ++ "/locations/".data ++ profile.issuingPool.location.data
    ++ "/caPools/".data ++ profile.issuingPool.name.data)
  let call := Event.casCreate parent cert_body cert_id (some g)
  match env.casResp with
  | .error e => ⟨[call], .error e, g + 1⟩
  | .ok cert => ⟨[call], .ok (cert.pemCertificate :: cert.pemCertificateChain), g + 1⟩

/-! ## cert_rotator.py -/

/-- Embeds `RotationWorkflow.shouldRotate`: managed certificates are never
rotated; expired certificates always are; otherwise rotate exactly when
the remaining fraction of the lifetime is at most the profile threshold
(timedelta division is exact rational division here). -/
def shouldRotate (profile : RotationProfile) (cert : CertResource) (now : Int) : Bool :=
  if cert.certType == "MANAGED" then false
  else if decide (now > cert.expireTime) then true
  else
    let lifetime : ℚ := ((cert.expireTime - cert.creationTimestamp : Int) : ℚ)
    let remaining_time : ℚ := ((cert.expireTime - now : Int) : ℚ)
    decide (remaining_time / lifetime ≤ profile.rotationThreshold)

/-- The model of `genResourceId` (string_utils.py): a fresh random id,
drawn here from the counter that also models `uuid4`. -/
def genResourceId (g : Nat) : String := String.mk ("rid-".data ++ natReprChars g)

/-- Embeds `RotationWorkflow.run` (cert_rotator.py): fetch the installed
certificate; stop when rotation is not due; otherwise generate an id and a
key pair, issue from CAS, create the new certificate resource, bind it,
and finally delete the old certificate, each step propagating its
exception. -/
def run (profile : RotationProfile) (env : Env) (g : Nat) : StepOut Unit :=
  let c := HttpsProxyClient.ofLb profile.lb
  match c.getFirstCertificate env with
  | (t1, .error e) => ⟨t1, .error e, g⟩
  | (t1, .ok old_cert) =>
    if shouldRotate profile old_cert env.now = false then ⟨t1, .ok (), g⟩
    else
      let cert_id := genResourceId g
      let key := env.keyPair
      let t0 := t1 ++ [Event.genId g, Event.genKey]
      match issueNewCert profile env (g + 1) cert_id key.public_key with
      | ⟨t2, .error e, g2⟩ => ⟨t0 ++ t2, .error e, g2⟩
      | ⟨t2, .ok cert_chain, g2⟩ =>
        match c.createSslCertificate env g2
            (String.mk ("auto-".data ++ cert_id.data)) key.private_key
            (String.join cert_chain) with
        | ⟨t3, .error e, g3⟩ => ⟨t0 ++ t2 ++ t3, .error e, g3⟩
        | ⟨t3, .ok new_cert_uri, g3⟩ =>
          match c.setSslCertificate env g3 new_cert_uri with
          | ⟨t4, .error e, g4⟩ => ⟨t0 ++ t2 ++ t3 ++ t4, .error e, g4⟩
          | ⟨t4, .ok _, g4⟩ =>
            match c.deleteSslCertificate env old_cert.name with
            | (t5, r5) => ⟨t0 ++ t2 ++ t3 ++ t4 ++ t5, r5, g4⟩

/-! ## app.py -/

/-- Embeds `runAllProfiles` (app.py): run each configured profile's
workflow in order; an exception in one workflow propagates and aborts the
remaining profiles (there is no exception handler in the loop). -/
def runAllProfiles : List (RotationProfile × Env) → Nat → StepOut Unit
  | [], g => ⟨[], .ok (), g⟩
  | (p, e) :: rest, g =>
    match run p e g with
    | ⟨t, .error err, g2⟩ => ⟨t, .error err, g2⟩
    | ⟨t, .ok _, g2⟩ =>
      match runAllProfiles rest g2 with
      | ⟨t2, r2, g3⟩ => ⟨t ++ t2, r2, g3⟩

/-- Embeds `onRequest` (app.py): run all profiles, then return the empty
success response; an exception from any workflow propagates out of the
handler uncaught. -/
def onRequest (profiles : List (RotationProfile × Env)) (g : Nat) : Except PyErr String :=
  match (runAllProfiles profiles g).res with
  | .error e => .error e
  | .ok _ => .ok ""

/-! ## Helper lemmas -/

theorem digitChar_isDigit (n : Nat) : (digitChar n).isDigit = true := by
  have hb : ∀ m, m < 10 → (Char.ofNat (48 + m)).isDigit = true := by decide
  exact hb (n % 10) (Nat.mod_lt _ (by norm_num))

theorem mem_natDigitsAux (fuel : Nat) :
    ∀ (n : Nat) (acc : List Char) (c : Char),
      c ∈ natDigitsAux fuel n acc → c ∈ acc ∨ c.isDigit = true := by
  induction fuel with
  | zero => intro n acc c h; exact Or.inl h
  | succ f ih =>
    intro n acc c h
    simp only [natDigitsAux] at h
    split at h
    · rcases List.mem_cons.mp h with h1 | h1
      · exact Or.inr (h1 ▸ digitChar_isDigit n)
      · exact Or.inl h1
    · rcases ih (n / 10) (digitChar (n % 10) :: acc) c h with h1 | h1
      · rcases List.mem_cons.mp h1 with h2 | h2
        · exact Or.inr (h2 ▸ digitChar_isDigit (n % 10))
        · exact Or.inl h2
      · exact Or.inr h1

theorem mem_natReprChars {n : Nat} {c : Char} (h : c ∈ natReprChars n) :
    c.isDigit = true := by
  rcases mem_natDigitsAux (n + 1) n [] c h with h1 | h1
  · cases h1
  · exact h1

/-- With a zero microsecond remainder, the serialized duration is the
decimal seconds followed by the unit suffix. -/
theorem serializeDurationChars_whole (us : Nat) (h : us % 1000000 = 0) :
    serializeDurationChars us = natReprChars (us / 1000000) ++ ['s'] := by
  have hfmt : formatSecondsChars us = natReprChars (us / 1000000) ++ ['.', '0'] := by
    simp [formatSecondsChars, h]
  have hsuf : (['.', '0'] : List Char).isSuffixOf
      (natReprChars (us / 1000000) ++ ['.', '0']) = true := by
    rw [List.isSuffixOf_iff_suffix]
    exact List.suffix_append _ _
  have hlen : (natReprChars (us / 1000000) ++ ['.', '0']).length - 2
      = (natReprChars (us / 1000000)).length := by simp
  simp only [serializeDurationChars, hfmt, hsuf, if_pos rfl, hlen, ite_true]
  rw [List.take_left]

/-! ## Shared concrete fixtures for witnesses and counterexamples -/

/-- A global load balancer reference. -/
def lbGlobal : SimpleResource := ⟨"pr", "global", "lb1"⟩

/-- A concrete rotation profile: 30-day lifetime, threshold 1/2. -/
def profileG : RotationProfile :=
  ⟨lbGlobal, ⟨"pr", "us-central1", "pool"⟩, "example.com", 30, 1/2⟩

/-- A concrete non-managed installed certificate, valid from 0 to 100. -/
def oldCert : CertResource :=
  ⟨"old-cert", "https://x/sslCertificates/old-cert", "SELF_MANAGED", 0, 100⟩

/-- Concrete operations returned by insert / set / delete. -/
def opIns : Operation := ⟨"https://x/operations/op-ins", "https://x/sslCertificates/new"⟩

def opSet : Operation := ⟨"https://x/operations/op-set", "tl-set"⟩

def opDel : Operation := ⟨"https://x/operations/op-del", "tl-del"⟩

/-- A concrete issued certificate with a one-element chain. -/
def casCert0 : CasCert := ⟨"cas-name", "LEAF", ["INT"]⟩

/-- An environment in which every remote call succeeds and the installed
certificate is already expired (now = 200 > 100), so rotation runs. -/
def envAll : Env :=
  ⟨200, ⟨"PRIV", "PUB"⟩, .ok ⟨[oldCert.selfLink]⟩, .ok oldCert,
   .ok opIns, .ok opSet, .ok opDel, .ok casCert0, fun _ => .ok ⟨"DONE", false⟩⟩

/-- Like `envAll` but the proxy has an empty certificate list. -/
def envEmptyProxy : Env := { envAll with proxyResp := .ok ⟨[]⟩ }

/-- Like `envAll` but every awaited operation reports an error status in
its terminal state. -/
def envOpError : Env := { envAll with waitResp := fun _ => .ok ⟨"DONE", true⟩ }

/-! ## Claims -/

/-- C3: for every installed certificate whose type field equals MANAGED,
`shouldRotate` returns false unconditionally, regardless of the
certificate's timestamps and of the threshold. -/
theorem shouldRotate_managed_false (profile : RotationProfile)
    (cert : CertResource) (now : Int) (h : cert.certType = "MANAGED") :
    shouldRotate profile cert now = false := by
  simp [shouldRotate, h]

/-- Witness for C3 at a concrete managed certificate. -/
theorem shouldRotate_managed_false_witness :
    shouldRotate profileG ⟨"c", "link", "MANAGED", 0, 100⟩ 50 = false :=
  shouldRotate_managed_false profileG ⟨"c", "link", "MANAGED", 0, 100⟩ 50 rfl

/-- C2: for every non-MANAGED installed certificate with valid timestamps,
`shouldRotate` returns true when now is past the expiry, and otherwise
returns true exactly when the remaining fraction of the lifetime is at
most the profile's rotation threshold. -/
theorem shouldRotate_threshold_spec (profile : RotationProfile)
    (cert : CertResource) (now : Int)
    (hman : cert.certType ≠ "MANAGED")
    (_hvalid : cert.creationTimestamp < cert.expireTime) :
    (cert.expireTime < now → shouldRotate profile cert now = true) ∧
    (now ≤ cert.expireTime →
      (shouldRotate profile cert now = true ↔
        ((cert.expireTime - now : Int) : ℚ)
            / ((cert.expireTime - cert.creationTimestamp : Int) : ℚ)
          ≤ profile.rotationThreshold)) := by
  constructor
  · intro hexp
    simp [shouldRotate, hman, hexp]
  · intro hle
    have hnot : ¬ (now > cert.expireTime) := not_lt.mpr hle
    simp [shouldRotate, hman, hnot]

/-- Witness for C2: the spec's end-to-end scenario 1 rescaled (lifetime
0..90, now 73, threshold 34/100): remaining ratio 17/90 ≤ 34/100, so the
decision is to rotate. -/
theorem shouldRotate_threshold_spec_witness :
    shouldRotate ⟨lbGlobal, ⟨"pr", "us-central1", "pool"⟩, "example.com", 30, 34/100⟩
      ⟨"c", "link", "SELF_MANAGED", 0, 90⟩ 73 = true := by
  have h := shouldRotate_threshold_spec
    ⟨lbGlobal, ⟨"pr", "us-central1", "pool"⟩, "example.com", 30, 34/100⟩
    ⟨"c", "link", "SELF_MANAGED", 0, 90⟩ 73 (by decide) (by decide)
  exact (h.2 (by decide)).mpr (by norm_num)

/-- C8: `serializeDurationForJson` maps a 30-day lifetime to `2592000s`,
and for every duration whose total seconds have a zero fractional
component the result has no trailing `.0` before the `s` suffix. -/
theorem serializeDuration_spec :
    (∀ p : RotationProfile, p.lifetimeDays = 30 →
      serializeDurationForJson p.lifetimeUs = "2592000s") ∧
    (∀ us : Nat, us % 1000000 = 0 →
      ¬ (['.', '0', 's'] <:+ (serializeDurationForJson us).data)) := by
  constructor
  · intro p hp
    rw [RotationProfile.lifetimeUs, hp]
    decide
  · intro us h hsuf
    have hchars : (serializeDurationForJson us).data
        = natReprChars (us / 1000000) ++ ['s'] := by
      show serializeDurationChars us = _
      exact serializeDurationChars_whole us h
    rw [hchars] at hsuf
    rcases hsuf with ⟨t, ht⟩
    have ht2 : (t ++ ['.', '0']) ++ ['s'] = natReprChars (us / 1000000) ++ ['s'] := by
      simpa using ht
    have ht3 : t ++ ['.', '0'] = natReprChars (us / 1000000) :=
      List.append_cancel_right ht2
    have hdot : ('.' : Char) ∈ natReprChars (us / 1000000) := by
      rw [← ht3]; simp
    have : ('.' : Char).isDigit = true := mem_natReprChars hdot
    simp at this

/-- Witness for C8: the 30-day profile serializes to `2592000s`, and the
5-second duration's serialization has no trailing `.0` before the `s`. -/
theorem serializeDuration_spec_witness :
    serializeDurationForJson profileG.lifetimeUs = "2592000s" ∧
    ¬ (['.', '0', 's'] <:+ (serializeDurationForJson 5000000).data) :=
  ⟨serializeDuration_spec.1 profileG rfl, serializeDuration_spec.2 5000000 rfl⟩

/-- C5 counterexample: on a proxy with an empty certificate list the fetch
fails with an `IndexError` from the unguarded list index, not with the
`NotFoundError` the claim names. -/
theorem getFirstCertificate_empty_counterexample :
    (HttpsProxyClient.ofLb lbGlobal).getFirstCertificate envEmptyProxy
      = ([Event.getProxy true "pr" "global" "lb1"], Except.error PyErr.indexError)
    ∧ ((HttpsProxyClient.ofLb lbGlobal).getFirstCertificate envEmptyProxy).2
      ≠ Except.error PyErr.notFoundError := by
  decide

/-- C5 amended: with an empty attached-certificate list the workflow stops
at the proxy fetch with an `IndexError`: the trace is the single proxy-get
request and the run's outcome is that exception. -/
theorem run_empty_certificate_list (profile : RotationProfile) (env : Env)
    (g : Nat) (proxy : ProxyResource)
    (h1 : env.proxyResp = .ok proxy) (h2 : proxy.sslCertificates = []) :
    run profile env g
      = ⟨[Event.getProxy profile.lb.isGlobal profile.lb.project
            profile.lb.location profile.lb.name],
         .error PyErr.indexError, g⟩ := by
  simp [run, HttpsProxyClient.getFirstCertificate, HttpsProxyClient.ofLb, h1, h2]

/-- Witness for the C5 amended theorem at the concrete empty-list
environment. -/
theorem run_empty_certificate_list_witness :
    run profileG envEmptyProxy 0
      = ⟨[Event.getProxy profileG.lb.isGlobal profileG.lb.project
            profileG.lb.location profileG.lb.name],
         .error PyErr.indexError, 0⟩ :=
  run_empty_certificate_list profileG envEmptyProxy 0 ⟨[]⟩ rfl rfl

/-- C6: in an environment whose wait responses carry an error status in
the terminal state, `awaitOperation` still returns success and
`createSslCertificate` still returns the new resource URI — the terminal
status is never inspected (the source's `# TODO: confirm success
status.`), so no `OperationFailedError` is ever produced. -/
theorem awaitOperation_ignores_error_status :
    envOpError.waitResp (some "op-ins") = .ok ⟨"DONE", true⟩
    ∧ ((HttpsProxyClient.ofLb lbGlobal).awaitOperation envOpError opIns).2 = .ok ()
    ∧ ((HttpsProxyClient.ofLb lbGlobal).createSslCertificate envOpError 0
        "auto-x" "PRIV" "CHAIN").res = .ok "https://x/sslCertificates/new"
    ∧ ((HttpsProxyClient.ofLb lbGlobal).createSslCertificate envOpError 0
        "auto-x" "PRIV" "CHAIN").res ≠ .error PyErr.operationFailedError := by
  decide

/-- C4: when the fetched certificate does not need rotation the workflow
terminates successfully with zero mutating calls: no key generation, no
issuance, and no create, set, or delete request. -/
theorem run_noop_when_not_rotating (profile : RotationProfile) (env : Env)
    (g : Nat) (proxy : ProxyResource) (uri : String) (rest : List String)
    (cert : CertResource)
    (h1 : env.proxyResp = .ok proxy) (h2 : proxy.sslCertificates = uri :: rest)
    (h3 : env.certResp = .ok cert)
    (h4 : shouldRotate profile cert env.now = false) :
    (run profile env g).res = .ok () ∧
    ∀ ev ∈ (run profile env g).trace, ev.isMutating = false ∧ ev.isKeyGen = false := by
  have hrun : run profile env g =
      ⟨[Event.getProxy profile.lb.isGlobal profile.lb.project
          profile.lb.location profile.lb.name,
        Event.getCert profile.lb.isGlobal profile.lb.project
          profile.lb.location (parseResourceId uri "sslCertificates")],
       .ok (), g⟩ := by
    simp [run, HttpsProxyClient.getFirstCertificate, HttpsProxyClient.ofLb,
      h1, h2, h3, h4]
  rw [hrun]
  refine ⟨rfl, ?_⟩
  intro ev hev
  rcases List.mem_cons.mp hev with h | h
  · subst h; exact ⟨rfl, rfl⟩
  · rcases List.mem_cons.mp h with h5 | h5
    · subst h5; exact ⟨rfl, rfl⟩
    · cases h5

/-- An environment whose certificate is still comfortably valid
(remaining ratio 90/100 against threshold 1/2): no rotation. -/
def envNoRotate : Env := { envAll with now := 10 }

/-- Witness for C4 at the concrete no-rotation environment. -/
theorem run_noop_when_not_rotating_witness :
    (run profileG envNoRotate 0).res = .ok () ∧
    ∀ ev ∈ (run profileG envNoRotate 0).trace,
      ev.isMutating = false ∧ ev.isKeyGen = false :=
  run_noop_when_not_rotating profileG envNoRotate 0 ⟨[oldCert.selfLink]⟩
    oldCert.selfLink [] oldCert rfl rfl rfl (by
      simp only [shouldRotate, envNoRotate, envAll, oldCert, profileG]
      norm_num)

/-! ## Environment-level step predicates (for the ordering claim) -/

/-- The set-ssl-certificates step completes successfully in `env`: the set
request returns an operation and the wait on that operation returns. -/
def setStepOk (env : Env) : Prop :=
  ∃ op r, env.setResp = .ok op ∧
    env.waitResp (parseResourceId op.selfLink "operations") = .ok r

/-- The create-certificate step raises in `env`: either the insert request
itself or the wait on its operation raises. -/
def createStepFails (env : Env) : Prop :=
  (∃ e, env.insertResp = .error e) ∨
  (∃ op e, env.insertResp = .ok op ∧
    env.waitResp (parseResourceId op.selfLink "operations") = .error e)

/-- The set-certificate step raises in `env`. -/
def setStepFails (env : Env) : Prop :=
  (∃ e, env.setResp = .error e) ∨
  (∃ op e, env.setResp = .ok op ∧
    env.waitResp (parseResourceId op.selfLink "operations") = .error e)

/-- The fetch succeeds and the decision is to rotate in `env`. -/
def rotationDue (profile : RotationProfile) (env : Env) : Prop :=
  ∃ proxy uri rest cert, env.proxyResp = .ok proxy ∧
    proxy.sslCertificates = uri :: rest ∧ env.certResp = .ok cert ∧
    shouldRotate profile cert env.now = true

/-- C1: in every workflow run, a delete of the old certificate is emitted
only after the set of the new certificate, and only when the set step
completed successfully; and whenever rotation is due but the create or the
set step raises, no delete request is ever emitted and the run aborts with
an error. -/
theorem run_delete_only_after_set (profile : RotationProfile) (env : Env) (g : Nat) :
    ((∃ ev ∈ (run profile env g).trace, ev.isDelete = true) →
      setStepOk env ∧
      ∃ i j : Nat, i < j ∧
        (∃ evS, (run profile env g).trace.get? i = some evS ∧ evS.isSet = true) ∧
        (∃ evD, (run profile env g).trace.get? j = some evD ∧ evD.isDelete = true)) ∧
    (rotationDue profile env → createStepFails env ∨ setStepFails env →
      (∀ ev ∈ (run profile env g).trace, ev.isDelete = false) ∧
      ∃ e, (run profile env g).res = .error e) := by
  rcases hp : env.proxyResp with eP | proxy
  · have hrun : run profile env g =
        ⟨[Event.getProxy profile.lb.isGlobal profile.lb.project
            profile.lb.location profile.lb.name], .error eP, g⟩ := by
      simp [run, HttpsProxyClient.getFirstCertificate, HttpsProxyClient.ofLb, hp]
    rw [hrun]
    constructor
    · rintro ⟨ev, hev, hd⟩
      fin_cases hev <;> simp [Event.isDelete] at hd
    · rintro ⟨proxy, uri, rest, cert, hpp, -⟩ -
      rw [hp] at hpp
      exact Except.noConfusion hpp
  rcases hl : proxy.sslCertificates with - | ⟨uri, rest⟩
  · have hrun : run profile env g =
        ⟨[Event.getProxy profile.lb.isGlobal profile.lb.project
            profile.lb.location profile.lb.name], .error PyErr.indexError, g⟩ := by
      simp [run, HttpsProxyClient.getFirstCertificate, HttpsProxyClient.ofLb, hp, hl]
    rw [hrun]
    constructor
    · rintro ⟨ev, hev, hd⟩
      fin_cases hev <;> simp [Event.isDelete] at hd
    · rintro ⟨proxy2, uri, rest, cert, hpp, hl2, -⟩ -
      rw [hp] at hpp
      injection hpp with hpe
      subst hpe
      rw [hl] at hl2
      exact List.noConfusion hl2
  rcases hc : env.certResp with eC | cert
  · have hrun : run profile env g =
        ⟨[Event.getProxy profile.lb.isGlobal profile.lb.project
            profile.lb.location profile.lb.name,
          Event.getCert profile.lb.isGlobal profile.lb.project
            profile.lb.location (parseResourceId uri "sslCertificates")],
         .error eC, g⟩ := by
      simp [run, HttpsProxyClient.getFirstCertificate, HttpsProxyClient.ofLb,
        hp, hl, hc]
    rw [hrun]
    constructor
    · rintro ⟨ev, hev, hd⟩
      fin_cases hev <;> simp [Event.isDelete] at hd
    · rintro ⟨proxy2, uri2, rest2, cert, -, -, hcc, -⟩ -
      rw [hc] at hcc
      exact Except.noConfusion hcc
  rcases hsr : shouldRotate profile cert env.now with - | -
  · have hrun : run profile env g =
        ⟨[Event.getProxy profile.lb.isGlobal profile.lb.project
            profile.lb.location profile.lb.name,
          Event.getCert profile.lb.isGlobal profile.lb.project
            profile.lb.location (parseResourceId uri "sslCertificates")],
         .ok (), g⟩ := by
      simp [run, HttpsProxyClient.getFirstCertificate, HttpsProxyClient.ofLb,
        hp, hl, hc, hsr]
    rw [hrun]
    constructor
    · rintro ⟨ev, hev, hd⟩
      fin_cases hev <;> simp [Event.isDelete] at hd
    · rintro ⟨proxy2, uri2, rest2, cert2, hpp, hl2, hcc, hsr2⟩ -
      rw [hc] at hcc
      injection hcc with hce
      subst hce
      rw [hsr] at hsr2
      exact Bool.noConfusion hsr2
  rcases hcas : env.casResp with eCas | casC
  · have hrun : (run profile env g).trace =
        [Event.getProxy profile.lb.isGlobal profile.lb.project
            profile.lb.location profile.lb.name,
          Event.getCert profile.lb.isGlobal profile.lb.project
            profile.lb.location (parseResourceId uri "sslCertificates"),
          Event.genId g, Event.genKey,
          Event.casCreate
            (String.mk ("projects/".data ++ profile.issuingPool.project.data
              ++ "/locations/".data ++ profile.issuingPool.location.data
              ++ "/caPools/".data ++ profile.issuingPool.name.data))
            ⟨serializeDurationForJson profile.lifetimeUs,
             serializePemBytesForJson env.keyPair.public_key,
             profile.dnsName, [profile.dnsName], false, true, true, true⟩
            (genResourceId g) (some (g + 1))] ∧
        (run profile env g).res = .error eCas := by
      simp [run, HttpsProxyClient.getFirstCertificate, HttpsProxyClient.ofLb,
        issueNewCert, hp, hl, hc, hsr, hcas]
    constructor
    · rintro ⟨ev, hev, hd⟩
      rw [hrun.1] at hev
      fin_cases hev <;> simp [Event.isDelete] at hd
    · rintro - -
      refine ⟨?_, eCas, hrun.2⟩
      rw [hrun.1]
      intro ev hev
      fin_cases hev <;> rfl
  rcases hins : env.insertResp with eI | opI
  · constructor
    · rintro ⟨ev, hev, hd⟩
      simp [run, HttpsProxyClient.getFirstCertificate, HttpsProxyClient.ofLb,
        issueNewCert, HttpsProxyClient.createSslCertificate,
        hp, hl, hc, hsr, hcas, hins] at hev
      rcases hev with rfl | rfl | rfl | rfl | rfl | rfl <;>
        simp [Event.isDelete] at hd
    · rintro - -
      constructor
      · simp [run, HttpsProxyClient.getFirstCertificate, HttpsProxyClient.ofLb,
          issueNewCert, HttpsProxyClient.createSslCertificate, Event.isDelete,
          hp, hl, hc, hsr, hcas, hins]
      · refine ⟨eI, ?_⟩
        simp [run, HttpsProxyClient.getFirstCertificate, HttpsProxyClient.ofLb,
          issueNewCert, HttpsProxyClient.createSslCertificate,
          hp, hl, hc, hsr, hcas, hins]
  rcases hw1 : env.waitResp (parseResourceId opI.selfLink "operations") with eW1 | rW1
  · constructor
    · rintro ⟨ev, hev, hd⟩
      simp [run, HttpsProxyClient.getFirstCertificate, HttpsProxyClient.ofLb,
        issueNewCert, HttpsProxyClient.createSslCertificate,
        HttpsProxyClient.awaitOperation,
        hp, hl, hc, hsr, hcas, hins, hw1] at hev
      rcases hev with rfl | rfl | rfl | rfl | rfl | rfl | rfl <;>
        simp [Event.isDelete] at hd
    · rintro - -
      constructor
      · simp [run, HttpsProxyClient.getFirstCertificate, HttpsProxyClient.ofLb,
          issueNewCert, HttpsProxyClient.createSslCertificate,
          HttpsProxyClient.awaitOperation, Event.isDelete,
          hp, hl, hc, hsr, hcas, hins, hw1]
      · refine ⟨eW1, ?_⟩
        simp [run, HttpsProxyClient.getFirstCertificate, HttpsProxyClient.ofLb,
          issueNewCert, HttpsProxyClient.createSslCertificate,
          HttpsProxyClient.awaitOperation,
          hp, hl, hc, hsr, hcas, hins, hw1]
  rcases hset : env.setResp with eS | opS
  · constructor
    · rintro ⟨ev, hev, hd⟩
      simp [run, HttpsProxyClient.getFirstCertificate, HttpsProxyClient.ofLb,
        issueNewCert, HttpsProxyClient.createSslCertificate,
        HttpsProxyClient.setSslCertificate, HttpsProxyClient.awaitOperation,
        hp, hl, hc, hsr, hcas, hins, hw1, hset] at hev
      rcases hev with rfl | rfl | rfl | rfl | rfl | rfl | rfl | rfl <;>
        simp [Event.isDelete] at hd
    · rintro - -
      constructor
      · simp [run, HttpsProxyClient.getFirstCertificate, HttpsProxyClient.ofLb,
          issueNewCert, HttpsProxyClient.createSslCertificate,
          HttpsProxyClient.setSslCertificate, HttpsProxyClient.awaitOperation,
          Event.isDelete, hp, hl, hc, hsr, hcas, hins, hw1, hset]
      · refine ⟨eS, ?_⟩
        simp [run, HttpsProxyClient.getFirstCertificate, HttpsProxyClient.ofLb,
          issueNewCert, HttpsProxyClient.createSslCertificate,
          HttpsProxyClient.setSslCertificate, HttpsProxyClient.awaitOperation,
          hp, hl, hc, hsr, hcas, hins, hw1, hset]
  rcases hw2 : env.waitResp (parseResourceId opS.selfLink "operations") with eW2 | rW2
  · constructor
    · rintro ⟨ev, hev, hd⟩
      simp [run, HttpsProxyClient.getFirstCertificate, HttpsProxyClient.ofLb,
        issueNewCert, HttpsProxyClient.createSslCertificate,
        HttpsProxyClient.setSslCertificate, HttpsProxyClient.awaitOperation,
        hp, hl, hc, hsr, hcas, hins, hw1, hset, hw2] at hev
      rcases hev with rfl | rfl | rfl | rfl | rfl | rfl | rfl | rfl | rfl <;>
        simp [Event.isDelete] at hd
    · rintro - -
      constructor
      · simp [run, HttpsProxyClient.getFirstCertificate, HttpsProxyClient.ofLb,
          issueNewCert, HttpsProxyClient.createSslCertificate,
          HttpsProxyClient.setSslCertificate, HttpsProxyClient.awaitOperation,
          Event.isDelete, hp, hl, hc, hsr, hcas, hins, hw1, hset, hw2]
      · refine ⟨eW2, ?_⟩
        simp [run, HttpsProxyClient.getFirstCertificate, HttpsProxyClient.ofLb,
          issueNewCert, HttpsProxyClient.createSslCertificate,
          HttpsProxyClient.setSslCertificate, HttpsProxyClient.awaitOperation,
          hp, hl, hc, hsr, hcas, hins, hw1, hset, hw2]
  have hstepok : setStepOk env := ⟨opS, rW2, hset, hw2⟩
  have hnofail : ¬ (createStepFails env ∨ setStepFails env) := by
    rintro ((⟨e, h⟩ | ⟨op, e, h1, h2⟩) | (⟨e, h⟩ | ⟨op, e, h1, h2⟩))
    · rw [hins] at h; exact Except.noConfusion h
    · rw [hins] at h1; injection h1 with h3; subst h3
      rw [hw1] at h2; exact Except.noConfusion h2
    · rw [hset] at h; exact Except.noConfusion h
    · rw [hset] at h1; injection h1 with h3; subst h3
      rw [hw2] at h2; exact Except.noConfusion h2
  rcases hdel : env.deleteResp with eD | opD
  · constructor
    · rintro -
      refine ⟨hstepok, ?_⟩
      simp [run, HttpsProxyClient.getFirstCertificate, HttpsProxyClient.ofLb,
        issueNewCert, HttpsProxyClient.createSslCertificate,
        HttpsProxyClient.setSslCertificate, HttpsProxyClient.deleteSslCertificate,
        HttpsProxyClient.awaitOperation,
        hp, hl, hc, hsr, hcas, hins, hw1, hset, hw2, hdel]
      exact ⟨7, 9, by norm_num, ⟨_, rfl, rfl⟩, ⟨_, rfl, rfl⟩⟩
    · rintro - hfail
      exact absurd hfail hnofail
  rcases hw3 : env.waitResp (parseResourceId opD.selfLink "operations") with eW3 | rW3
  · constructor
    · rintro -
      refine ⟨hstepok, ?_⟩
      simp [run, HttpsProxyClient.getFirstCertificate, HttpsProxyClient.ofLb,
        issueNewCert, HttpsProxyClient.createSslCertificate,
        HttpsProxyClient.setSslCertificate, HttpsProxyClient.deleteSslCertificate,
        HttpsProxyClient.awaitOperation,
        hp, hl, hc, hsr, hcas, hins, hw1, hset, hw2, hdel, hw3]
      exact ⟨7, 9, by norm_num, ⟨_, rfl, rfl⟩, ⟨_, rfl, rfl⟩⟩
    · rintro - hfail
      exact absurd hfail hnofail
  · constructor
    · rintro -
      refine ⟨hstepok, ?_⟩
      simp [run, HttpsProxyClient.getFirstCertificate, HttpsProxyClient.ofLb,
        issueNewCert, HttpsProxyClient.createSslCertificate,
        HttpsProxyClient.setSslCertificate, HttpsProxyClient.deleteSslCertificate,
        HttpsProxyClient.awaitOperation,
        hp, hl, hc, hsr, hcas, hins, hw1, hset, hw2, hdel, hw3]
      exact ⟨7, 9, by norm_num, ⟨_, rfl, rfl⟩, ⟨_, rfl, rfl⟩⟩
    · rintro - hfail
      exact absurd hfail hnofail

/-- An environment in which rotation is due but the set-certificate
request is rejected. -/
def envSetFail : Env := { envAll with setResp := .error (PyErr.httpError 500) }

/-- Witness for C1: with the set step failing, the run emits no delete
request and aborts with an error. -/
theorem run_delete_only_after_set_witness :
    (∀ ev ∈ (run profileG envSetFail 0).trace, ev.isDelete = false) ∧
    ∃ e, (run profileG envSetFail 0).res = .error e :=
  (run_delete_only_after_set profileG envSetFail 0).2
    ⟨⟨[oldCert.selfLink]⟩, oldCert.selfLink, [], oldCert, rfl, rfl, rfl, by decide⟩
    (Or.inr (Or.inl ⟨PyErr.httpError 500, rfl⟩))

/-- C7 counterexample: in a fully successful rotation the delete request
carries no idempotency token at all — the claim that every mutating
request carries a fresh token fails on the delete step. -/
theorem mutating_token_counterexample :
    ¬ (∀ ev ∈ (run profileG envAll 0).trace,
        ev.isMutating = true → ev.reqToken.isSome = true) ∧
    Event.deleteCert true "pr" "global" "old-cert" none ∈ (run profileG envAll 0).trace := by
  decide

/-- C9 counterexample: an internal error (the empty certificate list) in a
profile's workflow propagates out of the request handler: the response is
that error, not the success-shaped empty string. -/
theorem onRequest_error_counterexample :
    onRequest [(profileG, envEmptyProxy)] 0 = .error PyErr.indexError ∧
    onRequest [(profileG, envEmptyProxy)] 0 ≠ .ok "" := by
  decide

/-- C10 counterexample: with resource type `.` the interpolated pattern is
a regex whose dot matches any character, so `parseResourceId` returns a
segment from a URI that contains no occurrence of the resource type at
all, where the claim requires `none`. -/
theorem parseResourceId_dot_counterexample :
    parseResourceId "x/seg" "." = some "seg" ∧
    hasTypedSegment "x/seg" "." = false ∧
    specParseResourceId "x/seg" "." = none := by
  decide

/-- On a resource type free of regex metacharacters, atom matching is
exact matching. -/
theorem matchAtoms_eq_matchExact (rtype : List Char)
    (h : ∀ c ∈ rtype, c ∉ reMetachars) :
    ∀ s : List Char, matchAtoms rtype s = matchExact rtype s := by
  induction rtype with
  | nil => intro s; rfl
  | cons p ps ih =>
    intro s
    have hp : p ∉ reMetachars := h p (List.mem_cons_self p ps)
    have hdot : p ≠ '.' := by
      intro he
      exact hp (he ▸ List.mem_cons_self '.' _)
    cases s with
    | nil => rfl
    | cons c cs =>
      have hm : reCharMatches p c = (p == c) := by
        simp [reCharMatches, hdot]
      simp only [matchAtoms, matchExact, hm]
      by_cases he : (p == c) = true
      · rw [if_pos he, if_pos he]
        exact ih (fun x hx => h x (List.mem_cons_of_mem p hx)) cs
      · rw [if_neg he, if_neg he]

/-- On a metacharacter-free resource type, the pattern trial at one
position agrees with the literal reading. -/
theorem matchPatternAt_eq_specMatchAt (rtype : List Char)
    (h : ∀ c ∈ rtype, c ∉ reMetachars) (s : List Char) :
    matchPatternAt rtype s = specMatchAt rtype s := by
  simp only [matchPatternAt, specMatchAt, matchAtoms_eq_matchExact rtype h s]

/-- On a metacharacter-free resource type, the leftmost regex search
agrees with the literal leftmost-occurrence search. -/
theorem reSearchGroup_eq_specFindSegment (rtype : List Char)
    (h : ∀ c ∈ rtype, c ∉ reMetachars) :
    ∀ s : List Char, reSearchGroup rtype s = specFindSegment rtype s := by
  intro s
  induction s with
  | nil => simp [reSearchGroup, specFindSegment, matchPatternAt_eq_specMatchAt rtype h]
  | cons c cs ih =>
    simp only [reSearchGroup, specFindSegment,
      matchPatternAt_eq_specMatchAt rtype h, ih]

/-- C10 amended: for every URI and every resource type containing no regex
metacharacter (as at both call sites, `operations` and `sslCertificates`),
`parseResourceId` returns exactly the spec's reading: the first non-empty
path segment immediately following the first occurrence of the resource
type followed by a slash, and `none` when the URI contains no such
occurrence; it is total by construction. -/
theorem parseResourceId_literal_spec (uri rtype : String)
    (h : ∀ c ∈ rtype.data, c ∉ reMetachars) :
    parseResourceId uri rtype = specParseResourceId uri rtype ∧
    (parseResourceId uri rtype = none ↔ hasTypedSegment uri rtype = false) := by
  have he : parseResourceId uri rtype = specParseResourceId uri rtype := by
    simp only [parseResourceId, specParseResourceId,
      reSearchGroup_eq_specFindSegment rtype.data h]
  refine ⟨he, ?_⟩
  rw [he]
  simp only [specParseResourceId, hasTypedSegment]
  cases specFindSegment rtype.data uri.data <;> simp

/-- Witness for the C10 amended theorem at the operations call site. -/
theorem parseResourceId_literal_spec_witness :
    parseResourceId "https://x/operations/op-1" "operations"
      = specParseResourceId "https://x/operations/op-1" "operations" ∧
    (parseResourceId "https://x/operations/op-1" "operations" = none ↔
      hasTypedSegment "https://x/operations/op-1" "operations" = false) :=
  parseResourceId_literal_spec "https://x/operations/op-1" "operations" (by decide)

/-- Is this event one of the request kinds that carry an idempotency
token in the source (CAS create, certificate insert, set)? -/
def Event.isTokenedKind : Event → Bool
  | .casCreate _ _ _ _ => true
  | .insertCert _ _ _ _ _ => true
  | .setCerts _ _ _ _ _ _ => true
  | _ => false

set_option maxHeartbeats 1600000 in
/-- C7 amended: in every workflow run, each CAS-issuance, certificate
create, and certificate set request carries a fresh idempotency token,
the tokens carried in one run are pairwise distinct, and the delete
request carries no token. -/
theorem mutating_tokens_amended (profile : RotationProfile) (env : Env) (g : Nat) :
    (∀ ev ∈ (run profile env g).trace, ev.isDelete = true → ev.reqToken = none) ∧
    (∀ ev ∈ (run profile env g).trace, ev.isTokenedKind = true → ev.reqToken.isSome = true) ∧
    (tokensOf (run profile env g).trace).Nodup := by
  rcases hp : env.proxyResp with eP | proxy
  · refine ⟨?_, ?_, ?_⟩ <;>
      simp [run, HttpsProxyClient.getFirstCertificate, HttpsProxyClient.ofLb,
        issueNewCert, HttpsProxyClient.createSslCertificate,
        HttpsProxyClient.setSslCertificate, HttpsProxyClient.deleteSslCertificate,
        HttpsProxyClient.awaitOperation, Event.isDelete, Event.isTokenedKind,
        Event.reqToken, tokensOf,
        hp]
  rcases hl : proxy.sslCertificates with - | ⟨uri, rest⟩
  · refine ⟨?_, ?_, ?_⟩ <;>
      simp [run, HttpsProxyClient.getFirstCertificate, HttpsProxyClient.ofLb,
        issueNewCert, HttpsProxyClient.createSslCertificate,
        HttpsProxyClient.setSslCertificate, HttpsProxyClient.deleteSslCertificate,
        HttpsProxyClient.awaitOperation, Event.isDelete, Event.isTokenedKind,
        Event.reqToken, tokensOf,
        hp, hl]
  rcases hc : env.certResp with eC | cert
  · refine ⟨?_, ?_, ?_⟩ <;>
      simp [run, HttpsProxyClient.getFirstCertificate, HttpsProxyClient.ofLb,
        issueNewCert, HttpsProxyClient.createSslCertificate,
        HttpsProxyClient.setSslCertificate, HttpsProxyClient.deleteSslCertificate,
        HttpsProxyClient.awaitOperation, Event.isDelete, Event.isTokenedKind,
        Event.reqToken, tokensOf,
        hp, hl, hc]
  rcases hsr : shouldRotate profile cert env.now with - | -
  · refine ⟨?_, ?_, ?_⟩ <;>
      simp [run, HttpsProxyClient.getFirstCertificate, HttpsProxyClient.ofLb,
        issueNewCert, HttpsProxyClient.createSslCertificate,
        HttpsProxyClient.setSslCertificate, HttpsProxyClient.deleteSslCertificate,
        HttpsProxyClient.awaitOperation, Event.isDelete, Event.isTokenedKind,
        Event.reqToken, tokensOf,
        hp, hl, hc, hsr]
  rcases hcas : env.casResp with eCas | casC
  · refine ⟨?_, ?_, ?_⟩ <;>
      simp [run, HttpsProxyClient.getFirstCertificate, HttpsProxyClient.ofLb,
        issueNewCert, HttpsProxyClient.createSslCertificate,
        HttpsProxyClient.setSslCertificate, HttpsProxyClient.deleteSslCertificate,
        HttpsProxyClient.awaitOperation, Event.isDelete, Event.isTokenedKind,
        Event.reqToken, tokensOf,
        hp, hl, hc, hsr, hcas]
  rcases hins : env.insertResp with eI | opI
  · refine ⟨?_, ?_, ?_⟩ <;>
      simp [run, HttpsProxyClient.getFirstCertificate, HttpsProxyClient.ofLb,
        issueNewCert, HttpsProxyClient.createSslCertificate,
        HttpsProxyClient.setSslCertificate, HttpsProxyClient.deleteSslCertificate,
        HttpsProxyClient.awaitOperation, Event.isDelete, Event.isTokenedKind,
        Event.reqToken, tokensOf,
        hp, hl, hc, hsr, hcas, hins]
  rcases hw1 : env.waitResp (parseResourceId opI.selfLink "operations") with eW1 | rW1
  · refine ⟨?_, ?_, ?_⟩ <;>
      simp [run, HttpsProxyClient.getFirstCertificate, HttpsProxyClient.ofLb,
        issueNewCert, HttpsProxyClient.createSslCertificate,
        HttpsProxyClient.setSslCertificate, HttpsProxyClient.deleteSslCertificate,
        HttpsProxyClient.awaitOperation, Event.isDelete, Event.isTokenedKind,
        Event.reqToken, tokensOf,
        hp, hl, hc, hsr, hcas, hins, hw1]
  rcases hset : env.setResp with eS | opS
  · refine ⟨?_, ?_, ?_⟩ <;>
      simp [run, HttpsProxyClient.getFirstCertificate, HttpsProxyClient.ofLb,
        issueNewCert, HttpsProxyClient.createSslCertificate,
        HttpsProxyClient.setSslCertificate, HttpsProxyClient.deleteSslCertificate,
        HttpsProxyClient.awaitOperation, Event.isDelete, Event.isTokenedKind,
        Event.reqToken, tokensOf,
        hp, hl, hc, hsr, hcas, hins, hw1, hset]
  rcases hw2 : env.waitResp (parseResourceId opS.selfLink "operations") with eW2 | rW2
  · refine ⟨?_, ?_, ?_⟩ <;>
      simp [run, HttpsProxyClient.getFirstCertificate, HttpsProxyClient.ofLb,
        issueNewCert, HttpsProxyClient.createSslCertificate,
        HttpsProxyClient.setSslCertificate, HttpsProxyClient.deleteSslCertificate,
        HttpsProxyClient.awaitOperation, Event.isDelete, Event.isTokenedKind,
        Event.reqToken, tokensOf,
        hp, hl, hc, hsr, hcas, hins, hw1, hset, hw2]
  rcases hdel : env.deleteResp with eD | opD
  · refine ⟨?_, ?_, ?_⟩ <;>
      simp [run, HttpsProxyClient.getFirstCertificate, HttpsProxyClient.ofLb,
        issueNewCert, HttpsProxyClient.createSslCertificate,
        HttpsProxyClient.setSslCertificate, HttpsProxyClient.deleteSslCertificate,
        HttpsProxyClient.awaitOperation, Event.isDelete, Event.isTokenedKind,
        Event.reqToken, tokensOf,
        hp, hl, hc, hsr, hcas, hins, hw1, hset, hw2, hdel]
  rcases hw3 : env.waitResp (parseResourceId opD.selfLink "operations") with eW3 | rW3
  · refine ⟨?_, ?_, ?_⟩ <;>
      simp [run, HttpsProxyClient.getFirstCertificate, HttpsProxyClient.ofLb,
        issueNewCert, HttpsProxyClient.createSslCertificate,
        HttpsProxyClient.setSslCertificate, HttpsProxyClient.deleteSslCertificate,
        HttpsProxyClient.awaitOperation, Event.isDelete, Event.isTokenedKind,
        Event.reqToken, tokensOf,
        hp, hl, hc, hsr, hcas, hins, hw1, hset, hw2, hdel, hw3]
  refine ⟨?_, ?_, ?_⟩ <;>
      simp [run, HttpsProxyClient.getFirstCertificate, HttpsProxyClient.ofLb,
        issueNewCert, HttpsProxyClient.createSslCertificate,
        HttpsProxyClient.setSslCertificate, HttpsProxyClient.deleteSslCertificate,
        HttpsProxyClient.awaitOperation, Event.isDelete, Event.isTokenedKind,
        Event.reqToken, tokensOf,
        hp, hl, hc, hsr, hcas, hins, hw1, hset, hw2, hdel, hw3]

set_option maxHeartbeats 1600000 in
/-- The outcome of a run does not depend on the token counter: only the
event trace records the drawn tokens. -/
theorem run_res_gen_free (profile : RotationProfile) (env : Env) (g1 g2 : Nat) :
    (run profile env g1).res = (run profile env g2).res := by
  rcases hp : env.proxyResp with eP | proxy
  · simp [run, HttpsProxyClient.getFirstCertificate, HttpsProxyClient.ofLb,
        issueNewCert, HttpsProxyClient.createSslCertificate,
        HttpsProxyClient.setSslCertificate, HttpsProxyClient.deleteSslCertificate,
        HttpsProxyClient.awaitOperation, Event.isDelete, Event.isTokenedKind,
        Event.reqToken, tokensOf,
        hp]
  rcases hl : proxy.sslCertificates with - | ⟨uri, rest⟩
  · simp [run, HttpsProxyClient.getFirstCertificate, HttpsProxyClient.ofLb,
        issueNewCert, HttpsProxyClient.createSslCertificate,
        HttpsProxyClient.setSslCertificate, HttpsProxyClient.deleteSslCertificate,
        HttpsProxyClient.awaitOperation, Event.isDelete, Event.isTokenedKind,
        Event.reqToken, tokensOf,
        hp, hl]
  rcases hc : env.certResp with eC | cert
  · simp [run, HttpsProxyClient.getFirstCertificate, HttpsProxyClient.ofLb,
        issueNewCert, HttpsProxyClient.createSslCertificate,
        HttpsProxyClient.setSslCertificate, HttpsProxyClient.deleteSslCertificate,
        HttpsProxyClient.awaitOperation, Event.isDelete, Event.isTokenedKind,
        Event.reqToken, tokensOf,
        hp, hl, hc]
  rcases hsr : shouldRotate profile cert env.now with - | -
  · simp [run, HttpsProxyClient.getFirstCertificate, HttpsProxyClient.ofLb,
        issueNewCert, HttpsProxyClient.createSslCertificate,
        HttpsProxyClient.setSslCertificate, HttpsProxyClient.deleteSslCertificate,
        HttpsProxyClient.awaitOperation, Event.isDelete, Event.isTokenedKind,
        Event.reqToken, tokensOf,
        hp, hl, hc, hsr]
  rcases hcas : env.casResp with eCas | casC
  · simp [run, HttpsProxyClient.getFirstCertificate, HttpsProxyClient.ofLb,
        issueNewCert, HttpsProxyClient.createSslCertificate,
        HttpsProxyClient.setSslCertificate, HttpsProxyClient.deleteSslCertificate,
        HttpsProxyClient.awaitOperation, Event.isDelete, Event.isTokenedKind,
        Event.reqToken, tokensOf,
        hp, hl, hc, hsr, hcas]
  rcases hins : env.insertResp with eI | opI
  · simp [run, HttpsProxyClient.getFirstCertificate, HttpsProxyClient.ofLb,
        issueNewCert, HttpsProxyClient.createSslCertificate,
        HttpsProxyClient.setSslCertificate, HttpsProxyClient.deleteSslCertificate,
        HttpsProxyClient.awaitOperation, Event.isDelete, Event.isTokenedKind,
        Event.reqToken, tokensOf,
        hp, hl, hc, hsr, hcas, hins]
  rcases hw1 : env.waitResp (parseResourceId opI.selfLink "operations") with eW1 | rW1
  · simp [run, HttpsProxyClient.getFirstCertificate, HttpsProxyClient.ofLb,
        issueNewCert, HttpsProxyClient.createSslCertificate,
        HttpsProxyClient.setSslCertificate, HttpsProxyClient.deleteSslCertificate,
        HttpsProxyClient.awaitOperation, Event.isDelete, Event.isTokenedKind,
        Event.reqToken, tokensOf,
        hp, hl, hc, hsr, hcas, hins, hw1]
  rcases hset : env.setResp with eS | opS
  · simp [run, HttpsProxyClient.getFirstCertificate, HttpsProxyClient.ofLb,
        issueNewCert, HttpsProxyClient.createSslCertificate,
        HttpsProxyClient.setSslCertificate, HttpsProxyClient.deleteSslCertificate,
        HttpsProxyClient.awaitOperation, Event.isDelete, Event.isTokenedKind,
        Event.reqToken, tokensOf,
        hp, hl, hc, hsr, hcas, hins, hw1, hset]
  rcases hw2 : env.waitResp (parseResourceId opS.selfLink "operations") with eW2 | rW2
  · simp [run, HttpsProxyClient.getFirstCertificate, HttpsProxyClient.ofLb,
        issueNewCert, HttpsProxyClient.createSslCertificate,
        HttpsProxyClient.setSslCertificate, HttpsProxyClient.deleteSslCertificate,
        HttpsProxyClient.awaitOperation, Event.isDelete, Event.isTokenedKind,
        Event.reqToken, tokensOf,
        hp, hl, hc, hsr, hcas, hins, hw1, hset, hw2]
  rcases hdel : env.deleteResp with eD | opD
  · simp [run, HttpsProxyClient.getFirstCertificate, HttpsProxyClient.ofLb,
        issueNewCert, HttpsProxyClient.createSslCertificate,
        HttpsProxyClient.setSslCertificate, HttpsProxyClient.deleteSslCertificate,
        HttpsProxyClient.awaitOperation, Event.isDelete, Event.isTokenedKind,
        Event.reqToken, tokensOf,
        hp, hl, hc, hsr, hcas, hins, hw1, hset, hw2, hdel]
  rcases hw3 : env.waitResp (parseResourceId opD.selfLink "operations") with eW3 | rW3
  · simp [run, HttpsProxyClient.getFirstCertificate, HttpsProxyClient.ofLb,
        issueNewCert, HttpsProxyClient.createSslCertificate,
        HttpsProxyClient.setSslCertificate, HttpsProxyClient.deleteSslCertificate,
        HttpsProxyClient.awaitOperation, Event.isDelete, Event.isTokenedKind,
        Event.reqToken, tokensOf,
        hp, hl, hc, hsr, hcas, hins, hw1, hset, hw2, hdel, hw3]
  simp [run, HttpsProxyClient.getFirstCertificate, HttpsProxyClient.ofLb,
        issueNewCert, HttpsProxyClient.createSslCertificate,
        HttpsProxyClient.setSslCertificate, HttpsProxyClient.deleteSslCertificate,
        HttpsProxyClient.awaitOperation, Event.isDelete, Event.isTokenedKind,
        Event.reqToken, tokensOf,
        hp, hl, hc, hsr, hcas, hins, hw1, hset, hw2, hdel, hw3]

/-- Witness for the C7 amended theorem: the concrete successful run's
delete request carries no token and its drawn tokens are distinct. -/
theorem mutating_tokens_amended_witness :
    (Event.deleteCert true "pr" "global" "old-cert" none).reqToken = none ∧
    (tokensOf (run profileG envAll 0).trace).Nodup :=
  ⟨(mutating_tokens_amended profileG envAll 0).1
      (Event.deleteCert true "pr" "global" "old-cert" none) (by decide) rfl,
   (mutating_tokens_amended profileG envAll 0).2.2⟩

/-- C9 amended: the trigger endpoint's response is success-shaped exactly
when every configured profile's workflow ran without error; an internal
error is not swallowed — it propagates out of the handler (aborting the
remaining profiles) instead of producing the success response. -/
theorem onRequest_success_iff_all_ok :
    ∀ (pes : List (RotationProfile × Env)) (g : Nat),
      onRequest pes g = .ok "" ↔ ∀ pe ∈ pes, (run pe.1 pe.2 0).res = .ok () := by
  intro pes
  induction pes with
  | nil => intro g; simp [onRequest, runAllProfiles]
  | cons pe rest ih =>
    intro g
    obtain ⟨p, e⟩ := pe
    rcases hr : run p e g with ⟨t, r, g2⟩
    cases r with
    | error err =>
      have h0 : (run p e 0).res = .error err := by
        rw [run_res_gen_free p e 0 g, hr]
      constructor
      · intro hok
        exfalso
        simp [onRequest, runAllProfiles, hr] at hok
      · intro hall
        have hcontr := hall (p, e) (List.mem_cons_self _ _)
        rw [h0] at hcontr
        exact Except.noConfusion hcontr
    | ok u =>
      cases u
      have h0 : (run p e 0).res = .ok () := by
        rw [run_res_gen_free p e 0 g, hr]
      have hstep : onRequest ((p, e) :: rest) g = onRequest rest g2 := by
        simp only [onRequest, runAllProfiles, hr]
      rw [hstep, ih g2]
      constructor
      · intro hall pe2 hmem
        rcases List.mem_cons.mp hmem with h | h
        · subst h; exact h0
        · exact hall pe2 h
      · intro hall pe2 hmem
        exact hall pe2 (List.mem_cons_of_mem _ hmem)

/-- Witness for the C9 amended theorem: with every remote call succeeding
the handler returns the success-shaped empty response. -/
theorem onRequest_success_iff_all_ok_witness :
    onRequest [(profileG, envAll)] 0 = .ok "" :=
  (onRequest_success_iff_all_ok [(profileG, envAll)] 0).mpr (by
    intro pe hmem
    simp only [List.mem_singleton] at hmem
    subst hmem
    decide)
